import Mathlib

/-!
Verification of the women_saloon record-management service
(`src/src/index.ts`), a single-file Azle canister managing `Saloon`
records in a `StableBTreeMap<string, Saloon>`.

Shallow embedding conventions:
* the `StableBTreeMap` is an association list `Store` with first-match
  lookup, in-place replacement on insert, and key-filtering removal;
* the platform primitives `ic.caller()`, `ic.time()` and `uuidv4()` are
  explicit parameters (`caller`, `now`, `newId`) of each operation;
* `Principal` is a `String`, `nat64` is `Nat`, the JavaScript numbers
  (`float32` rating, `number` rate and amount) are `ℚ` with exact
  arithmetic;
* each exposed operation is a pure function
  `Store → ... → Except String α × Store` returning the Candid
  `Result` together with the post-state ($query operations return the
  store unchanged).
-/

namespace WomenSaloon

/-- The `ServiceRendered` record type of `index.ts`. -/
structure ServiceRendered where
  id : String
  serviceName : String
  serviceDescription : String
  serviceAmount : ℚ
  createdAt : Nat
deriving Repr, DecidableEq

/-- The `Saloon` record type of `index.ts`. -/
structure Saloon where
  owner : String
  id : String
  saloonName : String
  saloonLocation : String
  attachmentURL : String
  servicesRendered : List ServiceRendered
  rating : ℚ
  createdAt : Nat
  updatedAt : Option Nat
deriving Repr, DecidableEq

/-- The `SaloonPayload` record type of `index.ts`. -/
structure SaloonPayload where
  saloonName : String
  saloonLocation : String
  attachmentURL : String
deriving Repr, DecidableEq

/-- The `ServiceRenderedPayload` record type of `index.ts`. -/
structure ServiceRenderedPayload where
  serviceName : String
  serviceDescription : String
  serviceAmount : ℚ
deriving Repr, DecidableEq

/-- The `saloonStorage` map, modelled as an association list. -/
abbrev Store := List (String × Saloon)

/-- Model of `saloonStorage.get(k)`: first entry with matching key. -/
def Store.get (store : Store) (k : String) : Option Saloon :=
  match store with
  | [] => none
  | e :: rest => if e.1 = k then some e.2 else Store.get rest k

/-- Model of `saloonStorage.insert(k, v)`: replace the value at an existing key
in place, otherwise append the new entry. -/
def Store.insert (store : Store) (k : String) (v : Saloon) : Store :=
  match store with
  | [] => [(k, v)]
  | e :: rest => if e.1 = k then (k, v) :: rest else e :: Store.insert rest k v

/-- The mutation performed by `saloonStorage.remove(k)`: all entries at
the key are dropped (keys are unique in the map). -/
def Store.remove (store : Store) (k : String) : Store :=
  match store with
  | [] => []
  | e :: rest => if e.1 = k then Store.remove rest k else e :: Store.remove rest k

/-- Model of `saloonStorage.values()`. -/
def Store.values (store : Store) : List Saloon :=
  store.map Prod.snd

/-- Model of `getAllSaloons` (`index.ts` lines 42–52): error on an empty store,
otherwise all stored values. A $query, so the store is unchanged. -/
def getAllSaloons (store : Store) : Except String (List Saloon) × Store :=
  let saloons := Store.values store
  if saloons.length = 0 then
    (Except.error "No saloons found.", store)
  else
    (Except.ok saloons, store)

/-- Model of `getSaloonById` (`index.ts` lines 57–66): empty (falsy) id is
rejected first, then the store is consulted. A $query. -/
def getSaloonById (store : Store) (id : String) : Except String Saloon × Store :=
  if id = "" then
    (Except.error "Invalid id", store)
  else
    match Store.get store id with
    | some saloon => (Except.ok saloon, store)
    | none => (Except.error ("Saloon with id=" ++ id ++ " does not exist"), store)

/-- Model of `createSaloon` (`index.ts` lines 71–92): rejects a payload with any
empty (falsy) required field, otherwise builds the new record with
`id = uuidv4()`, `owner = ic.caller()`, rating 1.0, no services,
`createdAt = ic.time()`, `updatedAt = None`, and inserts it under its
own id. -/
def createSaloon (store : Store) (caller : String) (now : Nat) (newId : String)
    (payload : SaloonPayload) : Except String Saloon × Store :=
  if payload.saloonName = "" ∨ payload.saloonLocation = "" ∨ payload.attachmentURL = "" then
    (Except.error "Missing required fields in payload", store)
  else
    let saloon : Saloon :=
      { id := newId
        owner := caller
        rating := 1
        servicesRendered := []
        createdAt := now
        updatedAt := none
        saloonName := payload.saloonName
        saloonLocation := payload.saloonLocation
        attachmentURL := payload.attachmentURL }
    (Except.ok saloon, Store.insert store saloon.id saloon)

/-- The `ServiceRendered` literal built at the top of `createService`
(`index.ts` line 98), before any lookup or ownership check. -/
def mkServiceRendered (newId : String) (now : Nat)
    (payload : ServiceRenderedPayload) : ServiceRendered :=
  { id := newId
    createdAt := now
    serviceName := payload.serviceName
    serviceDescription := payload.serviceDescription
    serviceAmount := payload.serviceAmount }

/-- Model of `createService` (`index.ts` lines 97–122): looks the saloon up,
checks ownership, pushes the new service onto the copy of
`servicesRendered` and writes the record back under `saloon.id`. -/
def createService (store : Store) (caller : String) (now : Nat) (newId : String)
    (id : String) (payload : ServiceRenderedPayload) : Except String Saloon × Store :=
  let serviceRendered := mkServiceRendered newId now payload
  match Store.get store id with
  | some saloon =>
      if saloon.owner ≠ caller then
        (Except.error "You are not the owner of this saloon", store)
      else
        let updated : Saloon :=
          { saloon with servicesRendered := saloon.servicesRendered ++ [serviceRendered] }
        (Except.ok updated, Store.insert store saloon.id updated)
  | none => (Except.error "Unable to carry out the following function", store)

/-- Model of `deleteSaloon` (`index.ts` lines 126–138): `saloonStorage.remove(id)`
removes and returns the record before the ownership check; on an
ownership match a second (no-op) `remove(id)` runs. -/
def deleteSaloon (store : Store) (caller : String) (id : String) :
    Except String Saloon × Store :=
  match Store.get store id with
  | some saloon =>
      let store1 := Store.remove store id
      if saloon.owner ≠ caller then
        (Except.error "You are not the owner of this saloon", store1)
      else
        (Except.ok saloon, Store.remove store1 id)
  | none =>
      (Except.error ("couldn't delete saloon with this id=" ++ id ++ ". saloon not found."),
       store)

/-- Model of `rateSaloon` (`index.ts` lines 143–178): range check on the rate,
then two lookups of the same id on the unchanged store. The rating
from the first lookup feeds the blend `(current + rate) / 5` only when
the second lookup succeeds, so the two lookups collapse to one match. -/
def rateSaloon (store : Store) (now : Nat) (id : String) (rate : ℚ) :
    Except String Saloon × Store :=
  if rate < 0 ∨ rate > 5 then
    (Except.error ("Error rating saloon with the id=" ++ id ++
      ". Invalid rating value. Value should not be more than 5 or less than 0"), store)
  else
    match Store.get store id with
    | some saloonData =>
        let rating : ℚ := (saloonData.rating + rate) / 5
        let saloon : Saloon := { saloonData with rating := rating, updatedAt := some now }
        (Except.ok saloon, Store.insert store saloon.id saloon)
    | none =>
        (Except.error ("Error rating saloon with the id=" ++ id ++ ". Saloon not found"),
         store)

/-- Model of `updateSaloonById` (`index.ts` lines 183–192): no ownership check —
the `caller` parameter is present for uniformity but never read,
exactly as the source never reads `ic.caller()` on this path. -/
def updateSaloonById (store : Store) (caller : String) (now : Nat) (id : String)
    (payload : SaloonPayload) : Except String Saloon × Store :=
  match Store.get store id with
  | some saloon =>
      let updatedSaloon : Saloon :=
        { saloon with
          saloonName := payload.saloonName
          saloonLocation := payload.saloonLocation
          attachmentURL := payload.attachmentURL
          updatedAt := some now }
      (Except.ok updatedSaloon, Store.insert store saloon.id updatedSaloon)
  | none =>
      (Except.error ("couldn't update the saloon with this id=" ++ id ++ ". saloon not found"),
       store)

/-- Every stored record is keyed by its own `id` field. -/
def WellFormedStore (store : Store) : Prop :=
  ∀ k s, Store.get store k = some s → s.id = k

/-- Store states reachable from the empty map by any sequence of the
exposed operations, with arbitrary platform inputs at each step. -/
inductive Reachable : Store → Prop where
  | empty : Reachable []
  | stepCreate (store caller now newId payload) :
      Reachable store → Reachable (createSaloon store caller now newId payload).2
  | stepService (store caller now newId id payload) :
      Reachable store → Reachable (createService store caller now newId id payload).2
  | stepDelete (store caller id) :
      Reachable store → Reachable (deleteSaloon store caller id).2
  | stepRate (store now id rate) :
      Reachable store → Reachable (rateSaloon store now id rate).2
  | stepUpdate (store caller now id payload) :
      Reachable store → Reachable (updateSaloonById store caller now id payload).2
  | stepGetAll (store) :
      Reachable store → Reachable (getAllSaloons store).2
  | stepGetById (store id) :
      Reachable store → Reachable (getSaloonById store id).2

/-! ### Store lemmas -/

theorem get_insert (store : Store) (k k' : String) (v : Saloon) :
    Store.get (Store.insert store k v) k' =
      if k = k' then some v else Store.get store k' := by
  induction store with
  | nil => by_cases h : k = k' <;> simp [Store.insert, Store.get, h]
  | cons e rest ih =>
      by_cases he : e.1 = k
      · have hins : Store.insert (e :: rest) k v = (k, v) :: rest := by
          simp [Store.insert, he]
        rw [hins]
        by_cases h : k = k'
        · simp [Store.get, h]
        · have he' : ¬ e.1 = k' := fun h2 => h (by rw [← he, h2])
          simp [Store.get, h, he']
      · have hins : Store.insert (e :: rest) k v = e :: Store.insert rest k v := by
          simp [Store.insert, he]
        rw [hins]
        by_cases h2 : e.1 = k'
        · have hk : ¬ k = k' := fun hk => he (by rw [hk]; exact h2)
          simp [Store.get, h2, hk]
        · simp [Store.get, h2, ih]

theorem get_remove (store : Store) (k k' : String) :
    Store.get (Store.remove store k) k' =
      if k = k' then none else Store.get store k' := by
  induction store with
  | nil => by_cases h : k = k' <;> simp [Store.remove, Store.get, h]
  | cons e rest ih =>
      by_cases he : e.1 = k
      · have hrem : Store.remove (e :: rest) k = Store.remove rest k := by
          simp [Store.remove, he]
        rw [hrem, ih]
        by_cases h : k = k'
        · simp [h]
        · have he' : ¬ e.1 = k' := fun h2 => h (by rw [← he, h2])
          simp [Store.get, h, he']
      · have hrem : Store.remove (e :: rest) k = e :: Store.remove rest k := by
          simp [Store.remove, he]
        rw [hrem]
        by_cases h2 : e.1 = k'
        · have hk : ¬ k = k' := fun hk => he (by rw [hk]; exact h2)
          simp [Store.get, h2, hk]
        · simp [Store.get, h2, ih]

theorem wellFormed_insert {store : Store} {k : String} {v : Saloon}
    (hw : WellFormedStore store) (hv : v.id = k) :
    WellFormedStore (Store.insert store k v) := by
  intro k' s hs
  rw [get_insert] at hs
  by_cases h : k = k'
  · rw [if_pos h] at hs
    cases hs
    rw [hv, h]
  · rw [if_neg h] at hs
    exact hw k' s hs

theorem wellFormed_remove {store : Store} (k : String)
    (hw : WellFormedStore store) : WellFormedStore (Store.remove store k) := by
  intro k' s hs
  rw [get_remove] at hs
  by_cases h : k = k'
  · rw [if_pos h] at hs; cases hs
  · rw [if_neg h] at hs
    exact hw k' s hs

/-! ### Concrete fixtures used by witnesses -/

/-- A valid creation payload. -/
def demoPayload : SaloonPayload :=
  { saloonName := "Braids", saloonLocation := "Lagos", attachmentURL := "http://pic" }

/-- A saloon owned by "alice", stored under its id "s1", rating 1.0. -/
def demoSaloon : Saloon :=
  { owner := "alice"
    id := "s1"
    saloonName := "Braids"
    saloonLocation := "Lagos"
    attachmentURL := "http://pic"
    servicesRendered := []
    rating := 1
    createdAt := 0
    updatedAt := none }

/-- A one-entry store holding `demoSaloon` under key "s1". -/
def demoStore : Store := [("s1", demoSaloon)]

/-- A service payload. -/
def demoServicePayload : ServiceRenderedPayload :=
  { serviceName := "Cut", serviceDescription := "Basic cut", serviceAmount := 10 }

/-! ### Claim theorems -/

/-- Claim C10: store-key invariant. In every store state reachable by
any sequence of the exposed operations from the empty store, every
stored `Saloon` is keyed by its own `id` field, and every mutating
operation preserves this. -/
theorem claim_C10 (store : Store) (h : Reachable store) : WellFormedStore store := by
  induction h with
  | empty => intro k s hs; simp [Store.get] at hs
  | stepCreate store caller now newId payload _ ih =>
      unfold createSaloon
      by_cases hp : payload.saloonName = "" ∨ payload.saloonLocation = "" ∨
          payload.attachmentURL = ""
      · rw [if_pos hp]; exact ih
      · rw [if_neg hp]
        exact wellFormed_insert ih rfl
  | stepService store caller now newId id payload _ ih =>
      unfold createService
      cases hget : Store.get store id with
      | none => exact ih
      | some saloon =>
          dsimp only
          by_cases hown : saloon.owner ≠ caller
          · rw [if_pos hown]; exact ih
          · rw [if_neg hown]
            exact wellFormed_insert ih rfl
  | stepDelete store caller id _ ih =>
      unfold deleteSaloon
      cases hget : Store.get store id with
      | none => exact ih
      | some saloon =>
          dsimp only
          by_cases hown : saloon.owner ≠ caller
          · rw [if_pos hown]; exact wellFormed_remove id ih
          · rw [if_neg hown]
            exact wellFormed_remove id (wellFormed_remove id ih)
  | stepRate store now id rate _ ih =>
      unfold rateSaloon
      by_cases hr : rate < 0 ∨ rate > 5
      · rw [if_pos hr]; exact ih
      · rw [if_neg hr]
        cases hget : Store.get store id with
        | none => exact ih
        | some saloonData => exact wellFormed_insert ih rfl
  | stepUpdate store caller now id payload _ ih =>
      unfold updateSaloonById
      cases hget : Store.get store id with
      | none => exact ih
      | some saloon => exact wellFormed_insert ih rfl
  | stepGetAll store _ ih =>
      unfold getAllSaloons
      by_cases h0 : (Store.values store).length = 0
      · rw [if_pos h0]; exact ih
      · rw [if_neg h0]; exact ih
  | stepGetById store id _ ih =>
      unfold getSaloonById
      by_cases hid : id = ""
      · rw [if_pos hid]; exact ih
      · rw [if_neg hid]
        cases hget : Store.get store id with
        | none => exact ih
        | some saloon => exact ih

/-- Claim C1: for every stored saloon with current rating `r` and every
rate `v` with `0 ≤ v ≤ 5`, `rateSaloon id v` returns Ok of the saloon
with rating replaced by `(r + v) / 5` and `updatedAt = some now`, and
that record is stored back under the same id. (The `s.id = id`
hypothesis is the store-key invariant, established for all reachable
stores by the C10 theorem.) -/
theorem claim_C1 (store : Store) (now : Nat) (id : String) (rate : ℚ)
    (s : Saloon) (hs : Store.get store id = some s) (hid : s.id = id)
    (h0 : 0 ≤ rate) (h5 : rate ≤ 5) :
    rateSaloon store now id rate =
      (Except.ok { s with rating := (s.rating + rate) / 5, updatedAt := some now },
       Store.insert store id
         { s with rating := (s.rating + rate) / 5, updatedAt := some now }) := by
  subst hid
  have hrange : ¬ (rate < 0 ∨ rate > 5) := by
    push_neg
    exact ⟨h0, h5⟩
  unfold rateSaloon
  rw [if_neg hrange, hs]

/-- Witness for C1, doubling as the worked example of the spec: rating a
saloon whose rating is 1.0 with rate 5 yields rating
`(1 + 5) / 5 = 6/5 = 1.2`. -/
theorem claim_C1_witness :
    (rateSaloon demoStore 7 "s1" 5).1 =
      Except.ok { demoSaloon with
                  rating := (demoSaloon.rating + 5) / 5
                  updatedAt := some 7 } ∧
    (demoSaloon.rating + 5) / 5 = 6 / 5 := by
  constructor
  · rw [claim_C1 demoStore 7 "s1" 5 demoSaloon (by decide) rfl (by norm_num) (by norm_num)]
  · norm_num [demoSaloon]

/-- Claim C2: deleting a saloon as a non-owner returns the
permission-denied error, yet the record has already been removed: the
post-state has no entry under the id, and `getSaloonById` on the
post-state reports it does not exist (for a non-empty id, since an
empty id is rejected as invalid before the lookup). -/
theorem claim_C2 (store : Store) (caller id : String) (s : Saloon)
    (hs : Store.get store id = some s) (hown : s.owner ≠ caller) :
    (deleteSaloon store caller id).1 =
      Except.error "You are not the owner of this saloon" ∧
    Store.get (deleteSaloon store caller id).2 id = none ∧
    (id ≠ "" → (getSaloonById (deleteSaloon store caller id).2 id).1 =
      Except.error ("Saloon with id=" ++ id ++ " does not exist")) := by
  have hdel : deleteSaloon store caller id =
      (Except.error "You are not the owner of this saloon", Store.remove store id) := by
    unfold deleteSaloon
    rw [hs]
    dsimp only
    rw [if_pos hown]
  refine ⟨by rw [hdel], ?_, ?_⟩
  · rw [hdel, get_remove]
    simp
  · intro hne
    rw [hdel]
    unfold getSaloonById
    rw [if_neg hne, get_remove, if_pos rfl]

/-- Witness for C2: "bob" deletes the saloon of "alice"; the call is denied
but the record is gone. -/
theorem claim_C2_witness :
    (deleteSaloon demoStore "bob" "s1").1 =
      Except.error "You are not the owner of this saloon" ∧
    Store.get (deleteSaloon demoStore "bob" "s1").2 "s1" = none ∧
    (getSaloonById (deleteSaloon demoStore "bob" "s1").2 "s1").1 =
      Except.error ("Saloon with id=" ++ "s1" ++ " does not exist") := by
  have h := claim_C2 demoStore "bob" "s1" demoSaloon (by decide) (by decide)
  exact ⟨h.1, h.2.1, h.2.2 (by decide)⟩

/-- Claim C3: `createService` by a non-owner returns the
permission-denied error and leaves the store unchanged (so in
particular `servicesRendered` keeps its length); a nonexistent id
yields the not-found error regardless of the caller, showing the
existence check runs before the ownership check. -/
theorem claim_C3 (store : Store) (caller : String) (now : Nat) (newId id : String)
    (payload : ServiceRenderedPayload) :
    (∀ s, Store.get store id = some s → s.owner ≠ caller →
      createService store caller now newId id payload =
        (Except.error "You are not the owner of this saloon", store)) ∧
    (Store.get store id = none →
      createService store caller now newId id payload =
        (Except.error "Unable to carry out the following function", store)) := by
  constructor
  · intro s hs hown
    unfold createService
    rw [hs]
    dsimp only
    rw [if_pos hown]
  · intro hn
    unfold createService
    rw [hn]

/-- Witness for C3: "bob" tries to add a service to the saloon of "alice";
denied, store unchanged; and a bogus id is not found. -/
theorem claim_C3_witness :
    createService demoStore "bob" 3 "svc9" "s1" demoServicePayload =
      (Except.error "You are not the owner of this saloon", demoStore) ∧
    createService demoStore "bob" 3 "svc9" "nope" demoServicePayload =
      (Except.error "Unable to carry out the following function", demoStore) := by
  constructor
  · exact (claim_C3 demoStore "bob" 3 "svc9" "s1" demoServicePayload).1
      demoSaloon (by decide) (by decide)
  · exact (claim_C3 demoStore "bob" 3 "svc9" "nope" demoServicePayload).2 (by decide)

/-- Claim C4: `createService` by the owner appends the single new
`ServiceRendered` as the last element (prior elements preserved in
order, which the record-update form `s.servicesRendered ++ [·]`
expresses), stores the replacement under the same id, and leaves
`updatedAt` untouched; a second successful call with a fresh generated
id leaves both entries in call order with distinct ids. (The
`s.id = id` hypothesis is the store-key invariant of C10.) -/
theorem claim_C4 (store : Store) (caller : String) (now1 now2 : Nat)
    (newId1 newId2 id : String) (p1 p2 : ServiceRenderedPayload) (s : Saloon)
    (hs : Store.get store id = some s) (hid : s.id = id) (hown : s.owner = caller)
    (hfresh : newId1 ≠ newId2) :
    createService store caller now1 newId1 id p1 =
      (Except.ok { s with
          servicesRendered := s.servicesRendered ++ [mkServiceRendered newId1 now1 p1] },
       Store.insert store id { s with
          servicesRendered := s.servicesRendered ++ [mkServiceRendered newId1 now1 p1] }) ∧
    Saloon.updatedAt { s with
        servicesRendered := s.servicesRendered ++ [mkServiceRendered newId1 now1 p1] } =
      s.updatedAt ∧
    (createService (createService store caller now1 newId1 id p1).2
        caller now2 newId2 id p2).1 =
      Except.ok { s with
        servicesRendered := s.servicesRendered ++
          [mkServiceRendered newId1 now1 p1, mkServiceRendered newId2 now2 p2] } ∧
    (mkServiceRendered newId1 now1 p1).id ≠ (mkServiceRendered newId2 now2 p2).id := by
  subst hid
  have hownn : ¬ s.owner ≠ caller := by simp [hown]
  have h1 : createService store caller now1 newId1 s.id p1 =
      (Except.ok ({ s with
          servicesRendered := s.servicesRendered ++ [mkServiceRendered newId1 now1 p1] } :
            Saloon),
       Store.insert store s.id { s with
          servicesRendered := s.servicesRendered ++ [mkServiceRendered newId1 now1 p1] }) := by
    unfold createService
    rw [hs]
    dsimp only
    rw [if_neg hownn]
  refine ⟨h1, rfl, ?_, by simp [mkServiceRendered, hfresh]⟩
  rw [h1]
  dsimp only
  unfold createService
  rw [get_insert, if_pos rfl]
  dsimp only
  rw [if_neg hownn, List.append_assoc]
  rfl

/-- Witness for C4: "alice" appends two services to her saloon. -/
theorem claim_C4_witness :
    createService demoStore "alice" 3 "u1" "s1" demoServicePayload =
      (Except.ok { demoSaloon with
          servicesRendered :=
            demoSaloon.servicesRendered ++ [mkServiceRendered "u1" 3 demoServicePayload] },
       Store.insert demoStore "s1" { demoSaloon with
          servicesRendered :=
            demoSaloon.servicesRendered ++ [mkServiceRendered "u1" 3 demoServicePayload] }) ∧
    (createService (createService demoStore "alice" 3 "u1" "s1" demoServicePayload).2
        "alice" 4 "u2" "s1" demoServicePayload).1 =
      Except.ok { demoSaloon with
        servicesRendered := demoSaloon.servicesRendered ++
          [mkServiceRendered "u1" 3 demoServicePayload,
           mkServiceRendered "u2" 4 demoServicePayload] } := by
  have h := claim_C4 demoStore "alice" 3 4 "u1" "u2" "s1"
    demoServicePayload demoServicePayload demoSaloon (by decide) rfl rfl (by decide)
  exact ⟨h.1, h.2.2.1⟩

/-- Claim C5: `getAllSaloons` on an empty store is an error; on a
nonempty store it is Ok of all stored values; after exactly one create
on the empty store it is a one-element sequence holding that saloon. -/
theorem claim_C5 (store : Store) :
    (store = [] → getAllSaloons store = (Except.error "No saloons found.", store)) ∧
    (store ≠ [] → getAllSaloons store = (Except.ok (Store.values store), store)) ∧
    (∀ caller now newId payload s,
      (createSaloon ([] : Store) caller now newId payload).1 = Except.ok s →
      (getAllSaloons (createSaloon ([] : Store) caller now newId payload).2).1 =
        Except.ok [s]) := by
  refine ⟨?_, ?_, ?_⟩
  · intro h
    subst h
    rfl
  · intro h
    have hlen : ¬ (Store.values store).length = 0 := by
      simp [Store.values, h]
    unfold getAllSaloons
    rw [if_neg hlen]
  · intro caller now newId payload s hok
    unfold createSaloon at hok ⊢
    by_cases hp : payload.saloonName = "" ∨ payload.saloonLocation = "" ∨
        payload.attachmentURL = ""
    · rw [if_pos hp] at hok
      exact absurd hok (by simp)
    · rw [if_neg hp] at hok ⊢
      dsimp only at hok ⊢
      have hsal : ({ id := newId
                     owner := caller
                     rating := 1
                     servicesRendered := []
                     createdAt := now
                     updatedAt := none
                     saloonName := payload.saloonName
                     saloonLocation := payload.saloonLocation
                     attachmentURL := payload.attachmentURL } : Saloon) = s := by
        injection hok
      rw [← hsal]
      rfl

/-- Witness for C5: the empty store errors; after creating one saloon
the listing holds exactly that saloon. -/
theorem claim_C5_witness :
    getAllSaloons ([] : Store) = (Except.error "No saloons found.", ([] : Store)) ∧
    (getAllSaloons (createSaloon ([] : Store) "alice" 0 "s1" demoPayload).2).1 =
      Except.ok [demoSaloon] := by
  have h := claim_C5 ([] : Store)
  exact ⟨h.1 rfl, h.2.2 "alice" 0 "s1" demoPayload demoSaloon rfl⟩

/-- Claim C6: `createSaloon` rejects a payload with any empty required
field leaving the store unchanged; with all three fields non-empty it
returns Ok of a record with `owner = caller`, rating 1.0, no services,
`createdAt = now`, `updatedAt` absent and `id = newId`, and inserts
exactly that record under that id. -/
theorem claim_C6 (store : Store) (caller : String) (now : Nat) (newId : String)
    (payload : SaloonPayload) :
    ((payload.saloonName = "" ∨ payload.saloonLocation = "" ∨ payload.attachmentURL = "") →
      createSaloon store caller now newId payload =
        (Except.error "Missing required fields in payload", store)) ∧
    (payload.saloonName ≠ "" → payload.saloonLocation ≠ "" → payload.attachmentURL ≠ "" →
      createSaloon store caller now newId payload =
        (Except.ok ({ id := newId
                      owner := caller
                      rating := 1
                      servicesRendered := []
                      createdAt := now
                      updatedAt := none
                      saloonName := payload.saloonName
                      saloonLocation := payload.saloonLocation
                      attachmentURL := payload.attachmentURL } : Saloon),
         Store.insert store newId
           { id := newId
             owner := caller
             rating := 1
             servicesRendered := []
             createdAt := now
             updatedAt := none
             saloonName := payload.saloonName
             saloonLocation := payload.saloonLocation
             attachmentURL := payload.attachmentURL })) := by
  constructor
  · intro h
    unfold createSaloon
    rw [if_pos h]
  · intro h1 h2 h3
    have hp : ¬ (payload.saloonName = "" ∨ payload.saloonLocation = "" ∨
        payload.attachmentURL = "") := by
      simp [h1, h2, h3]
    unfold createSaloon
    rw [if_neg hp]

/-- A payload with an empty required field, for the C6 witness. -/
def badPayload : SaloonPayload :=
  { saloonName := "", saloonLocation := "Lagos", attachmentURL := "http://pic" }

/-- Witness for C6: an empty `saloonName` is rejected; the valid
`demoPayload` creates exactly `demoSaloon`. -/
theorem claim_C6_witness :
    createSaloon ([] : Store) "alice" 0 "s1" badPayload =
      (Except.error "Missing required fields in payload", ([] : Store)) ∧
    createSaloon ([] : Store) "alice" 0 "s1" demoPayload =
      (Except.ok demoSaloon, Store.insert ([] : Store) "s1" demoSaloon) := by
  constructor
  · exact (claim_C6 [] "alice" 0 "s1" badPayload).1 (Or.inl rfl)
  · exact (claim_C6 [] "alice" 0 "s1" demoPayload).2 (by decide) (by decide) (by decide)

/-- Claim C7: `updateSaloonById` on an existing id replaces the three
text fields with the payload values, sets `updatedAt` to
`some now` (even when previously absent), keeps every other field (the
record-update form shows `id`, `owner`, `rating`, `servicesRendered`,
`createdAt` unchanged), and stores the record back under the same id;
on a missing id it returns the not-found error and the unchanged
store. (The `s.id = id` hypothesis is the store-key invariant of
C10.) -/
theorem claim_C7 (store : Store) (caller : String) (now : Nat) (id : String)
    (payload : SaloonPayload) :
    (∀ s, Store.get store id = some s → s.id = id →
      updateSaloonById store caller now id payload =
        (Except.ok ({ s with
            saloonName := payload.saloonName
            saloonLocation := payload.saloonLocation
            attachmentURL := payload.attachmentURL
            updatedAt := some now } : Saloon),
         Store.insert store id { s with
            saloonName := payload.saloonName
            saloonLocation := payload.saloonLocation
            attachmentURL := payload.attachmentURL
            updatedAt := some now })) ∧
    (Store.get store id = none →
      updateSaloonById store caller now id payload =
        (Except.error ("couldn't update the saloon with this id=" ++ id ++
          ". saloon not found"), store)) := by
  constructor
  · intro s hs hid
    subst hid
    unfold updateSaloonById
    rw [hs]
  · intro hn
    unfold updateSaloonById
    rw [hn]

/-- Witness for C7: updating `demoSaloon` (whose `updatedAt` is absent)
sets `updatedAt` to `some 9`; a bogus id is not found. -/
theorem claim_C7_witness :
    updateSaloonById demoStore "bob" 9 "s1" badPayload =
      (Except.ok ({ demoSaloon with
          saloonName := badPayload.saloonName
          saloonLocation := badPayload.saloonLocation
          attachmentURL := badPayload.attachmentURL
          updatedAt := some 9 } : Saloon),
       Store.insert demoStore "s1" { demoSaloon with
          saloonName := badPayload.saloonName
          saloonLocation := badPayload.saloonLocation
          attachmentURL := badPayload.attachmentURL
          updatedAt := some 9 }) ∧
    updateSaloonById demoStore "bob" 9 "nope" badPayload =
      (Except.error ("couldn't update the saloon with this id=" ++ "nope" ++
        ". saloon not found"), demoStore) := by
  constructor
  · exact (claim_C7 demoStore "bob" 9 "s1" badPayload).1 demoSaloon (by decide) rfl
  · exact (claim_C7 demoStore "bob" 9 "nope" badPayload).2 (by decide)

/-- Claim C8: `updateSaloonById` performs no ownership check: the
result (record and post-store) is identical for any two caller
identities, and in particular a caller who is not the owner gets a
successful Ok update. -/
theorem claim_C8 (store : Store) (c1 c2 : String) (now : Nat) (id : String)
    (payload : SaloonPayload) :
    updateSaloonById store c1 now id payload = updateSaloonById store c2 now id payload ∧
    (∀ s, Store.get store id = some s → s.owner ≠ c1 →
      (updateSaloonById store c1 now id payload).1 =
        Except.ok ({ s with
          saloonName := payload.saloonName
          saloonLocation := payload.saloonLocation
          attachmentURL := payload.attachmentURL
          updatedAt := some now } : Saloon)) := by
  refine ⟨rfl, ?_⟩
  intro s hs _
  unfold updateSaloonById
  rw [hs]

/-- Witness for C8: non-owners "bob" and "carol" both update the saloon
of "alice" with identical effect, and the update by "bob" succeeds. -/
theorem claim_C8_witness :
    updateSaloonById demoStore "bob" 9 "s1" demoPayload =
      updateSaloonById demoStore "carol" 9 "s1" demoPayload ∧
    (updateSaloonById demoStore "bob" 9 "s1" demoPayload).1 =
      Except.ok ({ demoSaloon with
        saloonName := demoPayload.saloonName
        saloonLocation := demoPayload.saloonLocation
        attachmentURL := demoPayload.attachmentURL
        updatedAt := some 9 } : Saloon) := by
  have h := claim_C8 demoStore "bob" "carol" 9 "s1" demoPayload
  exact ⟨h.1, h.2 demoSaloon (by decide) (by decide)⟩

/-- Claim C9: `getSaloonById` yields "Invalid id" for the empty id
whatever the store holds; the not-found error for a non-empty unmapped
id; Ok of the stored record otherwise — and the store is unchanged in
every case (the returned post-state equals the input store). -/
theorem claim_C9 (store : Store) (id : String) :
    (id = "" → getSaloonById store id = (Except.error "Invalid id", store)) ∧
    (id ≠ "" → Store.get store id = none →
      getSaloonById store id =
        (Except.error ("Saloon with id=" ++ id ++ " does not exist"), store)) ∧
    (∀ s, id ≠ "" → Store.get store id = some s →
      getSaloonById store id = (Except.ok s, store)) := by
  refine ⟨?_, ?_, ?_⟩
  · intro h
    unfold getSaloonById
    rw [if_pos h]
  · intro hne hn
    unfold getSaloonById
    rw [if_neg hne, hn]
  · intro s hne hs
    unfold getSaloonById
    rw [if_neg hne, hs]

/-- Witness for C9: the empty id is invalid even on a nonempty store;
"nope" is not found; "s1" is returned with the store untouched. -/
theorem claim_C9_witness :
    getSaloonById demoStore "" = (Except.error "Invalid id", demoStore) ∧
    getSaloonById demoStore "nope" =
      (Except.error ("Saloon with id=" ++ "nope" ++ " does not exist"), demoStore) ∧
    getSaloonById demoStore "s1" = (Except.ok demoSaloon, demoStore) := by
  have h := claim_C9 demoStore
  exact ⟨(h "").1 rfl, (h "nope").2.1 (by decide) (by decide),
    (h "s1").2.2 demoSaloon (by decide) (by decide)⟩

/-- Witness for C10: a concrete reachable store — create, then add a
service — satisfies the key invariant. -/
theorem claim_C10_witness :
    WellFormedStore (createService
      (createSaloon ([] : Store) "alice" 0 "s1" demoPayload).2 "alice" 3 "u1" "s1"
      demoServicePayload).2 :=
  claim_C10 _ (Reachable.stepService _ "alice" 3 "u1" "s1" demoServicePayload
    (Reachable.stepCreate ([] : Store) "alice" 0 "s1" demoPayload Reachable.empty))

end WomenSaloon
